import Mathlib

/-!
Shallow embedding of scripts/spark_news_consumer.py.

Nullable Spark SQL columns are modelled as Option-valued fields; double
arithmetic is modelled over ℚ.  Spark SQL three-valued logic is embedded
explicitly: arithmetic on a null operand yields null, a comparison with a
null operand yields null, and a when-branch fires only when its condition
is literally true.  The external collaborators (the VADER analyzer, the
Cassandra session) are parameters of the definitions that call them.
-/

namespace SparkNewsConsumer

/-- One record of the incoming news schema (start_streaming, lines 184-192).
Every column is nullable, hence Option-valued. -/
structure ArticleRecord where
  title : Option String
  description : Option String
  source : Option String
  url : Option String
  published_at : Option Int
  fetch_timestamp : Option Int
  company : Option String
deriving DecidableEq

/-- The inner function of create_sentiment_udf (lines 60-64): None input
gives None, otherwise the compound score of the external analyzer.  The
analyzer (analyze_sentiment, a black-box collaborator) is the parameter
scorer. -/
def get_sentiment (scorer : String → ℚ) : Option String → Option ℚ
  | none => none
  | some text => some (scorer text)

/-- Spark SQL addition on nullable doubles: null if either operand is null. -/
def sparkAdd : Option ℚ → Option ℚ → Option ℚ
  | some a, some b => some (a + b)
  | _, _ => none

/-- Spark SQL division of a nullable column by a non-null literal. -/
def sparkDiv : Option ℚ → ℚ → Option ℚ
  | some a, d => some (a / d)
  | none, _ => none

/-- Spark SQL comparison col >= lit: null when the column is null. -/
def sparkGeLit (a : Option ℚ) (c : ℚ) : Option Bool :=
  match a with
  | none => none
  | some x => some (decide (c ≤ x))

/-- Spark SQL comparison col <= lit: null when the column is null. -/
def sparkLeLit (a : Option ℚ) (c : ℚ) : Option Bool :=
  match a with
  | none => none
  | some x => some (decide (x ≤ c))

/-- Spark SQL when(...).when(...).otherwise(...): the first branch whose
condition is literally true fires; a null or false condition falls
through; the default fires when no branch matched. -/
def whenChain : List (Option Bool × String) → String → String
  | [], d => d
  | (c, v) :: rest, d => if c = some true then v else whenChain rest d

/-- The sentiment_label column of process_batch (lines 86-89). -/
def sentiment_label (overall : Option ℚ) : String :=
  whenChain
    [(sparkGeLit overall (5 / 100), "positive"),
     (sparkLeLit overall (-(5 / 100)), "negative")]
    "neutral"

/-- A row of sentiment_df (process_batch, lines 81-89): the input record
with the four derived columns. -/
structure ScoredRow extends ArticleRecord where
  title_sentiment : Option ℚ
  description_sentiment : Option ℚ
  overall_sentiment : Option ℚ
  sentiment_label : String
deriving DecidableEq

/-- The per-row content of the withColumn chain of process_batch
(lines 81-89). -/
def scoreArticle (scorer : String → ℚ) (a : ArticleRecord) : ScoredRow :=
  let ts := get_sentiment scorer a.title
  let ds := get_sentiment scorer a.description
  let ov := sparkDiv (sparkAdd ts ds) 2
  { toArticleRecord := a
    title_sentiment := ts
    description_sentiment := ds
    overall_sentiment := ov
    sentiment_label := sentiment_label ov }

/-- sentiment_df as a whole: the withColumn chain applied to each row of
the batch. -/
def scoreBatch (scorer : String → ℚ) (batch : List ArticleRecord) : List ScoredRow :=
  batch.map (scoreArticle scorer)

/-- Spark SQL avg aggregate: null values are ignored; on a group with no
non-null value the result is null. -/
def sparkAvg (xs : List (Option ℚ)) : Option ℚ :=
  let vs := xs.filterMap id
  if vs.length = 0 then none else some (vs.sum / (vs.length : ℚ))

/-- The when(label == positive, 1).otherwise(0) column of line 97. -/
def posInd (r : ScoredRow) : ℚ :=
  if r.sentiment_label = "positive" then 1 else 0

/-- The when(label == negative, 1).otherwise(0) column of line 99. -/
def negInd (r : ScoredRow) : ℚ :=
  if r.sentiment_label = "negative" then 1 else 0

/-- One row of the groupBy("company").agg(...) result (lines 92-101). -/
structure CompanyAggregate where
  avg_sentiment : Option ℚ
  article_count : Nat
  positive_ratio : Option ℚ
  negative_ratio : Option ℚ
deriving DecidableEq

/-- The aggregate computed for one company group: avg of overall_sentiment,
count(*), and the avg of the two indicator columns (lines 94-101). -/
def companyAgg (batch : List ScoredRow) (c : Option String) : CompanyAggregate :=
  let g := batch.filter (fun r => decide (r.company = c))
  { avg_sentiment := sparkAvg (g.map (fun r => r.overall_sentiment))
    article_count := g.length
    positive_ratio := sparkAvg (g.map (fun r => some (posInd r)))
    negative_ratio := sparkAvg (g.map (fun r => some (negInd r))) }

/-- company_sentiment (lines 92-101): one aggregate row per distinct value
of the company column observed in the batch. -/
def company_sentiment (batch : List ScoredRow) : List (Option String × CompanyAggregate) :=
  ((batch.map (fun r => r.company)).dedup).map (fun c => (c, companyAgg batch c))

/-- Spark ordering key comparison for orderBy(desc("overall_sentiment"))
(line 109): larger sentiments first, nulls last. -/
def descLe (a b : Option ℚ) : Bool :=
  match a, b with
  | none, none => true
  | none, some _ => false
  | some _, none => true
  | some x, some y => decide (y ≤ x)

/-- Spark ordering key comparison for orderBy("overall_sentiment")
(line 116): smaller sentiments first, nulls first. -/
def ascLe (a b : Option ℚ) : Bool :=
  match a, b with
  | none, _ => true
  | some _, none => false
  | some x, some y => decide (x ≤ y)

/-- Most-positive report (lines 108-112): sort by overall_sentiment
descending, keep the first k (k = 3 at the call site). -/
def most_positive (k : Nat) (batch : List ScoredRow) : List ScoredRow :=
  (batch.insertionSort
      (fun x y => descLe x.overall_sentiment y.overall_sentiment = true)).take k

/-- Most-negative report (lines 114-119): sort by overall_sentiment
ascending, keep the first k (k = 3 at the call site). -/
def most_negative (k : Nat) (batch : List ScoredRow) : List ScoredRow :=
  (batch.insertionSort
      (fun x y => ascLe x.overall_sentiment y.overall_sentiment = true)).take k

/-- The tuple bound to the prepared INSERT statement for one row
(save_to_cassandra, lines 159-168). -/
structure CassRow where
  timestamp : Option Int
  company : Option String
  title : Option String
  description : Option String
  title_sentiment : Option ℚ
  description_sentiment : Option ℚ
  overall_sentiment : Option ℚ
  sentiment_label : String
deriving DecidableEq

/-- The field extraction of lines 160-167. -/
def rowOf (r : ScoredRow) : CassRow :=
  { timestamp := r.fetch_timestamp
    company := r.company
    title := r.title
    description := r.description
    title_sentiment := r.title_sentiment
    description_sentiment := r.description_sentiment
    overall_sentiment := r.overall_sentiment
    sentiment_label := r.sentiment_label }

/-- The insert loop of save_to_cassandra (lines 157-168).  The Cassandra
session execute is the collaborator parameter ex; each iteration either
succeeds (the row becomes durable) or raises, and a raise aborts the rest
of the loop while the rows already written stay written.  Returns the
rows written so far paired with the first error if one occurred. -/
def insert_rows (ex : CassRow → Except String Unit) :
    List ScoredRow → List CassRow × Option String
  | [] => ([], none)
  | r :: rest =>
    match ex (rowOf r) with
    | Except.error e => ([], some e)
    | Except.ok _ =>
      match insert_rows ex rest with
      | (written, err) => (rowOf r :: written, err)

/-- The visible schema state of the Result Store: which tables exist and
which rows have been inserted. -/
structure StoreState where
  tables : List String
  rows : List CassRow
deriving DecidableEq

/-- The CREATE TABLE IF NOT EXISTS step of save_to_cassandra
(lines 133-146): the statement sent carries IF NOT EXISTS, so the store
creates the table only when absent and otherwise leaves the state
untouched, raising no error either way. -/
def ensure_schema (table : String) (s : StoreState) : StoreState :=
  if table ∈ s.tables then s else { s with tables := table :: s.tables }

/-- save_to_cassandra (lines 127-170): ensure the table exists, then run
the per-row insert loop; an insert error propagates to the caller after
the already-written rows became durable. -/
def save_to_cassandra (ex : CassRow → Except String Unit)
    (batch : List ScoredRow) (s : StoreState) : StoreState × Option String :=
  let s1 := ensure_schema "news_sentiment" s
  match insert_rows ex batch with
  | (written, err) => ({ s1 with rows := s1.rows ++ written }, err)

/-- The message printed for an empty batch (line 72). -/
def noDataMsg (epoch : Nat) : String :=
  "Batch " ++ toString epoch ++ ": No data received"

/-- The message printed when a batch is processed (line 75). -/
def processingMsg (epoch : Nat) : String :=
  "Processing batch " ++ toString epoch

/-- The message printed by the except handler (line 125): it carries the
batch identifier epoch_id and the error text. -/
def errorMsg (epoch : Nat) (e : String) : String :=
  "Error processing batch " ++ toString epoch ++ ": " ++ e

/-- process_batch (lines 68-125).  The whole body sits inside one
try/except: an empty batch short-circuits with a log line; otherwise the
pipeline body (scoring, aggregating, reporting, persisting — abstracted
as the fallible computation body) runs, and any error it raises is caught
by the handler, which logs it with the batch identifier and returns.  The
return type List String (the log) is total: no error escapes. -/
def process_batch (body : List ArticleRecord → Except String Unit)
    (epoch : Nat) (batch : List ArticleRecord) : List String :=
  if batch.isEmpty then [noDataMsg epoch]
  else
    match body batch with
    | Except.ok _ => [processingMsg epoch]
    | Except.error e => [processingMsg epoch, errorMsg epoch e]

/-- The concrete pipeline body of process_batch (lines 77-122): score the
batch, aggregate, rank, then save; the only fallible stage in the
embedding is the Cassandra insert loop, whose first error is raised. -/
def pipeline_body (scorer : String → ℚ) (ex : CassRow → Except String Unit)
    (batch : List ArticleRecord) : Except String Unit :=
  let scored := scoreBatch scorer batch
  match insert_rows ex scored with
  | (_, some e) => Except.error e
  | (_, none) => Except.ok ()

/-- The foreachBatch trigger loop (lines 209-214): each tick feeds one
batch with its epoch to process_batch; the logs concatenate. -/
def run_batches (body : List ArticleRecord → Except String Unit) :
    List (Nat × List ArticleRecord) → List String
  | [] => []
  | (epoch, b) :: rest => process_batch body epoch b ++ run_batches body rest

/-! Concrete data used to instantiate the theorems below. -/

/-- A record with every nullable column null. -/
def nullArticle : ArticleRecord :=
  { title := none, description := none, source := none, url := none,
    published_at := none, fetch_timestamp := none, company := none }

/-- A fully populated record. -/
def wArticle : ArticleRecord :=
  { title := some "t", description := some "d", source := none, url := none,
    published_at := none, fetch_timestamp := none, company := some "W" }

/-- The literal input of the specification's null-description test case. -/
def acmeArticle : ArticleRecord :=
  { title := some "Stock soars", description := none, source := none,
    url := none, published_at := none, fetch_timestamp := none,
    company := some "ACME" }

/-- A stand-in for the external analyzer returning a fixed compound
score. -/
def constScorer : String → ℚ := fun _ => 3 / 5

/-- A record with the given title, the title reused as description, and
the given company. -/
def mkArticle (t c : String) : ArticleRecord :=
  { title := some t, description := some t, source := none, url := none,
    published_at := none, fetch_timestamp := none, company := some c }

/-- A stand-in analyzer that assigns the five sentiment values of the
specification's extremal-selector example, keyed by title. -/
def scorer5 : String → ℚ := fun t =>
  if t = "a1" then 9 / 10
  else if t = "a2" then 1 / 10
  else if t = "a3" then -(8 / 10)
  else if t = "a4" then 1 / 2
  else -(1 / 5)

/-- A scored row with the given title, company and overall sentiment. -/
def mkScored (t c : String) (v : ℚ) (lab : String) : ScoredRow :=
  { title := some t, description := some t, source := none, url := none,
    published_at := none, fetch_timestamp := none, company := some c,
    title_sentiment := some v, description_sentiment := some v,
    overall_sentiment := some v, sentiment_label := lab }

/-- Article 1 of the extremal-selector example: sentiment 0.9. -/
def exA1 : ScoredRow := mkScored "a1" "c1" (9 / 10) "positive"

/-- Article 2 of the extremal-selector example: sentiment 0.1. -/
def exA2 : ScoredRow := mkScored "a2" "c1" (1 / 10) "positive"

/-- Article 3 of the extremal-selector example: sentiment -0.8. -/
def exA3 : ScoredRow := mkScored "a3" "c2" (-(8 / 10)) "negative"

/-- Article 4 of the extremal-selector example: sentiment 0.5. -/
def exA4 : ScoredRow := mkScored "a4" "c2" (5 / 10) "positive"

/-- Article 5 of the extremal-selector example: sentiment -0.2. -/
def exA5 : ScoredRow := mkScored "a5" "c3" (-(2 / 10)) "negative"

/-- The five-article batch of the extremal-selector example, with overall
sentiments 0.9, 0.1, -0.8, 0.5, -0.2 in batch order. -/
def batch5 : List ScoredRow := [exA1, exA2, exA3, exA4, exA5]

/-- A scored two-article batch sharing one company. -/
def exR1 : ScoredRow := scoreArticle scorer5 (mkArticle "a1" "c1")

/-- A second scored article, of another company. -/
def exR2 : ScoredRow := scoreArticle scorer5 (mkArticle "a2" "c2")

/-- A well-formed scored row (first row of the persistence example). -/
def okRow1 : ScoredRow :=
  { title := some "t1", description := some "t1", source := none, url := none,
    published_at := none, fetch_timestamp := some 1, company := some "A",
    title_sentiment := some (1 / 2), description_sentiment := some (1 / 2),
    overall_sentiment := some (1 / 2), sentiment_label := "positive" }

/-- A deliberately malformed scored row: its company is null (second row
of the persistence example). -/
def malRow : ScoredRow :=
  { title := some "t2", description := some "t2", source := none, url := none,
    published_at := none, fetch_timestamp := some 2, company := none,
    title_sentiment := some 0, description_sentiment := some 0,
    overall_sentiment := some 0, sentiment_label := "neutral" }

/-- A well-formed scored row (third row of the persistence example). -/
def okRow3 : ScoredRow :=
  { title := some "t3", description := some "t3", source := none, url := none,
    published_at := none, fetch_timestamp := some 3, company := some "C",
    title_sentiment := some (1 / 4), description_sentiment := some (1 / 4),
    overall_sentiment := some (1 / 4), sentiment_label := "positive" }

/-- A session execute that rejects exactly the rows with a null company
and accepts every other row. -/
def exampleExec : CassRow → Except String Unit := fun r =>
  if r.company = none then Except.error "malformed company" else Except.ok ()

/-! Helper lemmas shared by the claim theorems. -/

theorem sparkAdd_none_left (x : Option ℚ) : sparkAdd none x = none := by
  cases x <;> rfl

theorem sparkAdd_none_right (x : Option ℚ) : sparkAdd x none = none := by
  cases x <;> rfl

theorem sentiment_label_none : sentiment_label none = "neutral" := rfl

theorem scoreArticle_title_sentiment (scorer : String → ℚ) (a : ArticleRecord) :
    (scoreArticle scorer a).title_sentiment = get_sentiment scorer a.title := rfl

theorem scoreArticle_description_sentiment (scorer : String → ℚ) (a : ArticleRecord) :
    (scoreArticle scorer a).description_sentiment = get_sentiment scorer a.description := rfl

theorem scoreArticle_overall (scorer : String → ℚ) (a : ArticleRecord) :
    (scoreArticle scorer a).overall_sentiment =
      sparkDiv (sparkAdd (get_sentiment scorer a.title) (get_sentiment scorer a.description)) 2 := rfl

theorem scoreArticle_label (scorer : String → ℚ) (a : ArticleRecord) :
    (scoreArticle scorer a).sentiment_label =
      sentiment_label ((scoreArticle scorer a).overall_sentiment) := rfl

/-! Claim theorems. -/

/-- C1: whenever both title_sentiment and description_sentiment are
present, the computed overall_sentiment is exactly their mean
(title_sentiment + description_sentiment) / 2. -/
theorem C1_overall_is_mean (scorer : String → ℚ) (a : ArticleRecord) (t d : ℚ)
    (ht : (scoreArticle scorer a).title_sentiment = some t)
    (hd : (scoreArticle scorer a).description_sentiment = some d) :
    (scoreArticle scorer a).overall_sentiment = some ((t + d) / 2) := by
  rw [scoreArticle_title_sentiment] at ht
  rw [scoreArticle_description_sentiment] at hd
  rw [scoreArticle_overall, ht, hd]
  rfl

/-- C1 witness: a concrete scorer and article with both fields present. -/
theorem C1_overall_is_mean_witness :
    (scoreArticle constScorer wArticle).overall_sentiment =
      some ((3 / 5 + 3 / 5) / 2) :=
  C1_overall_is_mean constScorer wArticle (3 / 5) (3 / 5) rfl rfl

/-- C2: a numeric overall_sentiment is labeled by the fixed inclusive
thresholds: at least 0.05 gives positive, at most -0.05 gives negative,
strictly between them gives neutral, and the boundary values 0.05 and
-0.05 themselves are positive and negative respectively. -/
theorem C2_label_thresholds (v : ℚ) :
    (5 / 100 ≤ v → sentiment_label (some v) = "positive") ∧
    (v ≤ -(5 / 100) → sentiment_label (some v) = "negative") ∧
    (-(5 / 100) < v → v < 5 / 100 → sentiment_label (some v) = "neutral") ∧
    sentiment_label (some (5 / 100)) = "positive" ∧
    sentiment_label (some (-(5 / 100))) = "negative" := by
  have hpos : ∀ w : ℚ, 5 / 100 ≤ w → sentiment_label (some w) = "positive" := by
    intro w h
    simp [sentiment_label, whenChain, sparkGeLit, decide_eq_true h]
  have hneg : ∀ w : ℚ, w ≤ -(5 / 100) → sentiment_label (some w) = "negative" := by
    intro w h
    have h2 : ¬ (5 / 100 : ℚ) ≤ w := by linarith
    simp [sentiment_label, whenChain, sparkGeLit, sparkLeLit,
      decide_eq_false h2, decide_eq_true h]
  have hneu : ∀ w : ℚ, -(5 / 100) < w → w < 5 / 100 →
      sentiment_label (some w) = "neutral" := by
    intro w h1 h2
    have h3 : ¬ (5 / 100 : ℚ) ≤ w := by linarith
    have h4 : ¬ w ≤ -(5 / 100 : ℚ) := by linarith
    simp [sentiment_label, whenChain, sparkGeLit, sparkLeLit,
      decide_eq_false h3, decide_eq_false h4]
  exact ⟨hpos v, hneg v, hneu v, hpos _ le_rfl, hneg _ le_rfl⟩

/-- C2 witness: the three regions at concrete values. -/
theorem C2_label_thresholds_witness :
    sentiment_label (some (1 / 10)) = "positive" ∧
    sentiment_label (some (-(1 / 10))) = "negative" ∧
    sentiment_label (some 0) = "neutral" :=
  ⟨(C2_label_thresholds (1 / 10)).1 (by norm_num),
   (C2_label_thresholds (-(1 / 10))).2.1 (by norm_num),
   (C2_label_thresholds 0).2.2.1 (by norm_num) (by norm_num)⟩

/-- C3 counterexample: on the specified input (title "Stock soars",
description null, company "ACME") the title is scored, yet
overall_sentiment is null — not numeric, not equal to title_sentiment —
and the record carries the plain label "neutral", indistinguishable from
a genuinely neutral article, so it is not flagged as unscored. -/
theorem C3_counterexample :
    (scoreArticle constScorer acmeArticle).title_sentiment = some (3 / 5) ∧
    (scoreArticle constScorer acmeArticle).overall_sentiment = none ∧
    (scoreArticle constScorer acmeArticle).overall_sentiment ≠
      (scoreArticle constScorer acmeArticle).title_sentiment ∧
    (scoreArticle constScorer acmeArticle).sentiment_label = "neutral" := by
  refine ⟨rfl, rfl, ?_, rfl⟩
  intro h
  exact Option.noConfusion h

/-- C3 amended: when the description is null and the title present, the
title is still scored, but its score is not propagated: overall_sentiment
is null (in particular it is never averaged with zero and never equals
title_sentiment), and the record is kept with the unmarked label
"neutral" rather than being flagged. -/
theorem C3_null_description (scorer : String → ℚ) (a : ArticleRecord)
    (hd : a.description = none) (ht : a.title.isSome = true) :
    (scoreArticle scorer a).title_sentiment.isSome = true ∧
    (scoreArticle scorer a).overall_sentiment = none ∧
    (scoreArticle scorer a).overall_sentiment ≠
      (scoreArticle scorer a).title_sentiment ∧
    (scoreArticle scorer a).sentiment_label = "neutral" := by
  obtain ⟨t, ht2⟩ := Option.isSome_iff_exists.mp ht
  have h1 : (scoreArticle scorer a).title_sentiment = some (scorer t) := by
    rw [scoreArticle_title_sentiment, ht2]; rfl
  have h2 : (scoreArticle scorer a).overall_sentiment = none := by
    rw [scoreArticle_overall, hd]
    show sparkDiv (sparkAdd (get_sentiment scorer a.title) none) 2 = none
    rw [sparkAdd_none_right]
    rfl
  refine ⟨by rw [h1]; rfl, h2, by rw [h1, h2]; exact fun h => Option.noConfusion h, ?_⟩
  rw [scoreArticle_label, h2]
  rfl

/-- C3 amended witness: the ACME article under the constant scorer. -/
theorem C3_null_description_witness :
    (scoreArticle constScorer acmeArticle).title_sentiment.isSome = true ∧
    (scoreArticle constScorer acmeArticle).overall_sentiment = none ∧
    (scoreArticle constScorer acmeArticle).overall_sentiment ≠
      (scoreArticle constScorer acmeArticle).title_sentiment ∧
    (scoreArticle constScorer acmeArticle).sentiment_label = "neutral" :=
  C3_null_description constScorer acmeArticle rfl rfl

/-- C10: when either text field is null the corresponding sentiment is
null, overall_sentiment is null, the labeling chain falls through both
threshold comparisons and assigns "neutral", and the record is neither
rejected nor flagged: scoring keeps every row of the batch. -/
theorem C10_null_gives_neutral (scorer : String → ℚ) (a : ArticleRecord)
    (h : a.title = none ∨ a.description = none) :
    (scoreArticle scorer a).overall_sentiment = none ∧
    (scoreArticle scorer a).sentiment_label = "neutral" ∧
    ∀ batch : List ArticleRecord, a ∈ batch →
      scoreArticle scorer a ∈ scoreBatch scorer batch ∧
      (scoreBatch scorer batch).length = batch.length := by
  have h2 : (scoreArticle scorer a).overall_sentiment = none := by
    rw [scoreArticle_overall]
    rcases h with h | h
    · rw [h]
      show sparkDiv (sparkAdd none (get_sentiment scorer a.description)) 2 = none
      rw [sparkAdd_none_left]
      rfl
    · rw [h]
      show sparkDiv (sparkAdd (get_sentiment scorer a.title) none) 2 = none
      rw [sparkAdd_none_right]
      rfl
  refine ⟨h2, by rw [scoreArticle_label, h2]; rfl, ?_⟩
  intro batch hmem
  exact ⟨List.mem_map_of_mem _ hmem, List.length_map _ _⟩

/-- C10 witness: the all-null record inside a one-record batch. -/
theorem C10_null_gives_neutral_witness :
    (scoreArticle constScorer nullArticle).overall_sentiment = none ∧
    (scoreArticle constScorer nullArticle).sentiment_label = "neutral" ∧
    ∀ batch : List ArticleRecord, nullArticle ∈ batch →
      scoreArticle constScorer nullArticle ∈ scoreBatch constScorer batch ∧
      (scoreBatch constScorer batch).length = batch.length :=
  C10_null_gives_neutral constScorer nullArticle (Or.inl rfl)

/-- C5: an error raised anywhere in the per-batch body is caught by the
handler of process_batch, logged with the batch identifier, and the
orchestrator goes on: the caught batch contributes only its log lines and
the remaining batches of the stream are processed exactly as before. -/
theorem C5_failure_isolated (body : List ArticleRecord → Except String Unit)
    (epoch : Nat) (batch : List ArticleRecord) (e : String)
    (rest : List (Nat × List ArticleRecord))
    (hne : batch.isEmpty = false) (hfail : body batch = Except.error e) :
    process_batch body epoch batch = [processingMsg epoch, errorMsg epoch e] ∧
    run_batches body ((epoch, batch) :: rest) =
      processingMsg epoch :: errorMsg epoch e :: run_batches body rest := by
  have h1 : process_batch body epoch batch = [processingMsg epoch, errorMsg epoch e] := by
    simp [process_batch, hne, hfail]
  exact ⟨h1, by simp [run_batches, h1]⟩

/-- C5 witness: a body failing on a concrete non-empty batch, followed by
one more batch. -/
theorem C5_failure_isolated_witness :
    process_batch (fun _ => Except.error "boom") 7 [wArticle] =
      [processingMsg 7, errorMsg 7 "boom"] ∧
    run_batches (fun _ => Except.error "boom") [(7, [wArticle]), (8, [])] =
      processingMsg 7 :: errorMsg 7 "boom" ::
        run_batches (fun _ => Except.error "boom") [(8, [])] :=
  C5_failure_isolated (fun _ => Except.error "boom") 7 [wArticle] "boom"
    [(8, [])] rfl rfl

/-- C4 counterexample: in a batch of three rows whose second row is
malformed (null company), the insert loop writes only the first row; the
third row, although the store would accept it on its own, is never
written, because the failure on row two aborts the rest of the loop. -/
theorem C4_counterexample :
    (insert_rows exampleExec [okRow1, malRow, okRow3]).1 = [rowOf okRow1] ∧
    (insert_rows exampleExec [okRow3]).1 = [rowOf okRow3] ∧
    rowOf okRow3 ∉ (insert_rows exampleExec [okRow1, malRow, okRow3]).1 ∧
    (insert_rows exampleExec [okRow1, malRow, okRow3]).2 =
      some "malformed company" := by
  refine ⟨rfl, rfl, ?_, rfl⟩
  show rowOf okRow3 ∉ [rowOf okRow1]
  intro hmem
  have h := List.mem_singleton.mp hmem
  exact absurd (congrArg CassRow.timestamp h) (by decide)

/-- C4 amended: row writes are sequential and the loop has no per-row
error handling: the first failing row raises out of the loop, so the rows
before it stay written and every row after it — the whole remainder of
the batch — is not written at all. -/
theorem C4_first_error_aborts (ex : CassRow → Except String Unit)
    (pre : List ScoredRow) (r : ScoredRow) (post : List ScoredRow) (e : String)
    (hpre : ∀ p ∈ pre, ex (rowOf p) = Except.ok ())
    (hr : ex (rowOf r) = Except.error e) :
    insert_rows ex (pre ++ r :: post) = (pre.map rowOf, some e) := by
  induction pre with
  | nil => simp [insert_rows, hr]
  | cons p ps ih =>
    have hp := hpre p (List.mem_cons_self p ps)
    have hps : ∀ q ∈ ps, ex (rowOf q) = Except.ok () :=
      fun q hq => hpre q (List.mem_cons_of_mem p hq)
    simp [insert_rows, hp, ih hps]

/-- C4 amended witness: the three-row batch with the malformed middle
row. -/
theorem C4_first_error_aborts_witness :
    (∀ p ∈ [okRow1], exampleExec (rowOf p) = Except.ok ()) ∧
    exampleExec (rowOf malRow) = Except.error "malformed company" ∧
    insert_rows exampleExec ([okRow1] ++ malRow :: [okRow3]) =
      ([okRow1].map rowOf, some "malformed company") := by
  have hpre : ∀ p ∈ [okRow1], exampleExec (rowOf p) = Except.ok () := by
    intro p hp
    rcases List.mem_singleton.mp hp with rfl
    rfl
  exact ⟨hpre, rfl,
    C4_first_error_aborts exampleExec [okRow1] malRow [okRow3]
      "malformed company" hpre rfl⟩

/-- C9: schema setup is create-if-not-exists: running it twice equals
running it once, running it on a store that already has the table changes
nothing, and it never produces a duplicate table entry (the call is a
total function, so no error is possible). -/
theorem C9_ensure_schema_idem (t : String) (s : StoreState) :
    ensure_schema t (ensure_schema t s) = ensure_schema t s ∧
    (t ∈ s.tables → ensure_schema t s = s) ∧
    (s.tables.count t ≤ 1 → (ensure_schema t s).tables.count t = 1) := by
  by_cases h : t ∈ s.tables
  · refine ⟨by simp [ensure_schema, h], fun _ => by simp [ensure_schema, h],
      fun hc => ?_⟩
    have hpos : 0 < s.tables.count t := List.count_pos_iff.mpr h
    simp [ensure_schema, h]
    omega
  · refine ⟨?_, fun hmem => absurd hmem h, fun hc => ?_⟩
    · simp [ensure_schema, h]
    · simp [ensure_schema, h, List.count_cons_self, List.count_eq_zero.mpr h]

/-- C9 witness: the news_sentiment table against the empty store and
against a store already holding it. -/
theorem C9_ensure_schema_idem_witness :
    ensure_schema "news_sentiment" (ensure_schema "news_sentiment" ⟨[], []⟩) =
      ensure_schema "news_sentiment" ⟨[], []⟩ ∧
    ensure_schema "news_sentiment" ⟨["news_sentiment"], []⟩ =
      ⟨["news_sentiment"], []⟩ ∧
    (ensure_schema "news_sentiment"
        (⟨[], []⟩ : StoreState)).tables.count "news_sentiment" = 1 :=
  ⟨(C9_ensure_schema_idem "news_sentiment" ⟨[], []⟩).1,
   (C9_ensure_schema_idem "news_sentiment" ⟨["news_sentiment"], []⟩).2.1
     (by simp),
   (C9_ensure_schema_idem "news_sentiment" ⟨[], []⟩).2.2 (by simp)⟩

/-- C8: on the five-article batch with overall sentiments
0.9, 0.1, -0.8, 0.5, -0.2, the most-positive report returns the articles
with sentiments 0.9, 0.5, 0.1 in that order and the most-negative report
those with -0.8, -0.2, 0.1 in that order. -/
theorem C8_extremal_example :
    (most_positive 3 batch5).map (fun r => r.overall_sentiment) =
      [some (9 / 10), some (5 / 10), some (1 / 10)] ∧
    (most_positive 3 batch5).map (fun r => r.title) =
      [some "a1", some "a4", some "a2"] ∧
    (most_negative 3 batch5).map (fun r => r.overall_sentiment) =
      [some (-(8 / 10)), some (-(2 / 10)), some (1 / 10)] ∧
    (most_negative 3 batch5).map (fun r => r.title) =
      [some "a3", some "a5", some "a2"] := by
  have d1 : descLe (some ((5 : ℚ) / 10)) (some (-(2 / 10))) = true := by
    norm_num [descLe]
  have d2 : descLe (some (-((8 : ℚ) / 10))) (some (5 / 10)) = false := by
    norm_num [descLe]
  have d3 : descLe (some (-((8 : ℚ) / 10))) (some (-(2 / 10))) = false := by
    norm_num [descLe]
  have d4 : descLe (some ((10 : ℚ)⁻¹)) (some (5 / 10)) = false := by
    norm_num [descLe]
  have d5 : descLe (some ((10 : ℚ)⁻¹)) (some (-(2 / 10))) = true := by
    norm_num [descLe]
  have d6 : descLe (some ((9 : ℚ) / 10)) (some (5 / 10)) = true := by
    norm_num [descLe]
  have a1 : ascLe (some ((5 : ℚ) / 10)) (some (-(2 / 10))) = false := by
    norm_num [ascLe]
  have a2 : ascLe (some (-((8 : ℚ) / 10))) (some (-(2 / 10))) = true := by
    norm_num [ascLe]
  have a3 : ascLe (some ((10 : ℚ)⁻¹)) (some (-(8 / 10))) = false := by
    norm_num [ascLe]
  have a4 : ascLe (some ((10 : ℚ)⁻¹)) (some (-(2 / 10))) = false := by
    norm_num [ascLe]
  have a5 : ascLe (some ((10 : ℚ)⁻¹)) (some (5 / 10))  = true := by
    norm_num [ascLe]
  have a6 : ascLe (some ((9 : ℚ) / 10)) (some (-(8 / 10))) = false := by
    norm_num [ascLe]
  have a7 : ascLe (some ((9 : ℚ) / 10)) (some (-(2 / 10))) = false := by
    norm_num [ascLe]
  have a8 : ascLe (some ((9 : ℚ) / 10)) (some (10⁻¹))  = false := by
    norm_num [ascLe]
  have a9 : ascLe (some ((9 : ℚ) / 10)) (some (5 / 10))  = false := by
    norm_num [ascLe]
  have hdesc : batch5.insertionSort
      (fun x y => descLe x.overall_sentiment y.overall_sentiment = true) =
      [exA1, exA4, exA2, exA5, exA3] := by
    simp [batch5, List.insertionSort, List.orderedInsert,
      exA1, exA2, exA3, exA4, exA5, mkScored, d1, d2, d3, d4, d5, d6]
  have hasc : batch5.insertionSort
      (fun x y => ascLe x.overall_sentiment y.overall_sentiment = true) =
      [exA3, exA5, exA2, exA4, exA1] := by
    simp [batch5, List.insertionSort, List.orderedInsert,
      exA1, exA2, exA3, exA4, exA5, mkScored, a1, a2, a3, a4, a5, a6, a7, a8, a9]
  have hp : most_positive 3 batch5 = [exA1, exA4, exA2] := by
    show (batch5.insertionSort
      (fun x y => descLe x.overall_sentiment y.overall_sentiment = true)).take 3 = _
    rw [hdesc]
    rfl
  have hn : most_negative 3 batch5 = [exA3, exA5, exA2] := by
    show (batch5.insertionSort
      (fun x y => ascLe x.overall_sentiment y.overall_sentiment = true)).take 3 = _
    rw [hasc]
    rfl
  refine ⟨?_, ?_, ?_, ?_⟩ <;>
    simp [hp, hn, exA1, exA2, exA3, exA4, exA5, mkScored]

theorem filterMap_overall_length (l : List ScoredRow)
    (h : ∀ r ∈ l, (r.overall_sentiment).isSome = true) :
    (l.filterMap (fun r => r.overall_sentiment)).length = l.length := by
  induction l with
  | nil => rfl
  | cons a t ih =>
    obtain ⟨v, hv⟩ := Option.isSome_iff_exists.mp (h a (List.mem_cons_self a t))
    have ht := fun r hr => h r (List.mem_cons_of_mem a hr)
    simp [List.filterMap_cons, hv, ih ht]

theorem filterMap_id_map_overall (g : List ScoredRow) :
    (g.map (fun r => r.overall_sentiment)).filterMap id =
      g.filterMap (fun r => r.overall_sentiment) := by
  induction g with
  | nil => rfl
  | cons a t ih => cases ha : a.overall_sentiment <;> simp [ha, ih]

theorem sparkAvg_map_some (f : ScoredRow → ℚ) (l : List ScoredRow) :
    sparkAvg (l.map (fun r => some (f r))) =
      if l.length = 0 then none
      else some ((l.map f).sum / (l.length : ℚ)) := by
  have h : (l.map (fun r => some (f r))).filterMap id = l.map f := by
    induction l with
    | nil => rfl
    | cons a t ih => simp [ih]
  simp [sparkAvg, h]

theorem sum_map_posInd (l : List ScoredRow) :
    (l.map posInd).sum =
      (l.countP (fun r => decide (r.sentiment_label = "positive")) : ℚ) := by
  induction l with
  | nil => simp
  | cons a t ih =>
    by_cases hp : a.sentiment_label = "positive" <;>
      simp [posInd, List.countP_cons, hp, ih, add_comm]

theorem sum_map_negInd (l : List ScoredRow) :
    (l.map negInd).sum =
      (l.countP (fun r => decide (r.sentiment_label = "negative")) : ℚ) := by
  induction l with
  | nil => simp
  | cons a t ih =>
    by_cases hp : a.sentiment_label = "negative" <;>
      simp [negInd, List.countP_cons, hp, ih, add_comm]

/-- C6: on a non-empty batch of fully scored articles, grouping yields
exactly one aggregate per distinct company value; each aggregate's group
is non-empty, its article_count is the group's size, its avg_sentiment is
the arithmetic mean of the group's overall_sentiment values, and its
positive and negative ratios are the counts of articles labeled positive
and negative divided by article_count. -/
theorem C6_aggregation (batch : List ScoredRow) (_hne : batch ≠ [])
    (hall : ∀ r ∈ batch, (r.overall_sentiment).isSome = true) :
    ((company_sentiment batch).map Prod.fst).Nodup ∧
    (∀ c, c ∈ (company_sentiment batch).map Prod.fst ↔
      c ∈ batch.map (fun r => r.company)) ∧
    ∀ c a, (c, a) ∈ company_sentiment batch →
      0 < a.article_count ∧
      a.article_count =
        (batch.filter (fun r => decide (r.company = c))).length ∧
      a.avg_sentiment = some
        (((batch.filter (fun r => decide (r.company = c))).filterMap
            (fun r => r.overall_sentiment)).sum / (a.article_count : ℚ)) ∧
      a.positive_ratio = some
        ((((batch.filter (fun r => decide (r.company = c))).countP
            (fun r => decide (r.sentiment_label = "positive"))) : ℚ) /
          (a.article_count : ℚ)) ∧
      a.negative_ratio = some
        ((((batch.filter (fun r => decide (r.company = c))).countP
            (fun r => decide (r.sentiment_label = "negative"))) : ℚ) /
          (a.article_count : ℚ)) := by
  have hkeys : (company_sentiment batch).map Prod.fst =
      (batch.map (fun r => r.company)).dedup := by
    simp [company_sentiment, List.map_map, Function.comp_def]
  refine ⟨by rw [hkeys]; exact List.nodup_dedup _,
    fun c => by rw [hkeys]; exact List.mem_dedup, ?_⟩
  intro c a hmem
  simp only [company_sentiment, List.mem_map] at hmem
  obtain ⟨c', hc', heq⟩ := hmem
  injection heq with h1 h2
  subst h1
  subst h2
  have hc2 : c' ∈ batch.map (fun r => r.company) := List.mem_dedup.mp hc'
  obtain ⟨r0, hr0, hr0c⟩ := List.mem_map.mp hc2
  set g := batch.filter (fun r => decide (r.company = c')) with hg
  have hr0g : r0 ∈ g := by
    rw [hg]
    exact List.mem_filter.mpr ⟨hr0, decide_eq_true hr0c⟩
  have hglen : 0 < g.length := List.length_pos_of_mem hr0g
  have hgall : ∀ r ∈ g, (r.overall_sentiment).isSome = true := by
    intro r hr
    exact hall r (List.mem_filter.mp hr).1
  have hlen0 : ¬ g.length = 0 := Nat.pos_iff_ne_zero.mp hglen
  have hvs : (g.map (fun r => r.overall_sentiment)).filterMap id =
      g.filterMap (fun r => r.overall_sentiment) := filterMap_id_map_overall g
  have hvlen : (g.filterMap (fun r => r.overall_sentiment)).length = g.length :=
    filterMap_overall_length g hgall
  have hcount : (companyAgg batch c').article_count = g.length := rfl
  refine ⟨hglen, rfl, ?_, ?_, ?_⟩
  · show sparkAvg (g.map (fun r => r.overall_sentiment)) = _
    simp only [sparkAvg, hvs, hvlen]
    rw [if_neg hlen0, hcount]
  · show sparkAvg (g.map (fun r => some (posInd r))) = _
    rw [sparkAvg_map_some, if_neg hlen0, sum_map_posInd, hcount]
  · show sparkAvg (g.map (fun r => some (negInd r))) = _
    rw [sparkAvg_map_some, if_neg hlen0, sum_map_negInd, hcount]

/-- C6 witness: the aggregation contract at a concrete fully scored
two-article batch. -/
theorem C6_aggregation_witness :
    ([exR1, exR2] ≠ []) ∧
    (∀ r ∈ [exR1, exR2], (r.overall_sentiment).isSome = true) ∧
    (((company_sentiment [exR1, exR2]).map Prod.fst).Nodup ∧
    (∀ c, c ∈ (company_sentiment [exR1, exR2]).map Prod.fst ↔
      c ∈ [exR1, exR2].map (fun r => r.company)) ∧
    ∀ c a, (c, a) ∈ company_sentiment [exR1, exR2] →
      0 < a.article_count ∧
      a.article_count =
        ([exR1, exR2].filter (fun r => decide (r.company = c))).length ∧
      a.avg_sentiment = some
        ((([exR1, exR2].filter (fun r => decide (r.company = c))).filterMap
            (fun r => r.overall_sentiment)).sum / (a.article_count : ℚ)) ∧
      a.positive_ratio = some
        (((([exR1, exR2].filter (fun r => decide (r.company = c))).countP
            (fun r => decide (r.sentiment_label = "positive"))) : ℚ) /
          (a.article_count : ℚ)) ∧
      a.negative_ratio = some
        (((([exR1, exR2].filter (fun r => decide (r.company = c))).countP
            (fun r => decide (r.sentiment_label = "negative"))) : ℚ) /
          (a.article_count : ℚ))) :=
  ⟨by simp, by decide, C6_aggregation [exR1, exR2] (by simp) (by decide)⟩

theorem sparkAvg_perm {xs ys : List (Option ℚ)} (h : xs.Perm ys) :
    sparkAvg xs = sparkAvg ys := by
  have hv := h.filterMap id
  simp only [sparkAvg]
  rw [hv.length_eq, hv.sum_eq]

/-- C7: aggregation is order-independent: a permutation of a batch yields
the same aggregate rows (the same membership of company-aggregate pairs,
and field-for-field equal per-company aggregates). -/
theorem C7_aggregation_perm (b1 b2 : List ScoredRow) (h : b1.Perm b2) :
    (∀ p, p ∈ company_sentiment b1 ↔ p ∈ company_sentiment b2) ∧
    ∀ c, companyAgg b1 c = companyAgg b2 c := by
  have hagg : ∀ c, companyAgg b1 c = companyAgg b2 c := by
    intro c
    have hf := h.filter (fun r => decide (r.company = c))
    simp only [companyAgg]
    rw [sparkAvg_perm (hf.map (fun r => r.overall_sentiment)),
      sparkAvg_perm (hf.map (fun r => some (posInd r))),
      sparkAvg_perm (hf.map (fun r => some (negInd r))),
      hf.length_eq]
  refine ⟨?_, hagg⟩
  intro p
  simp only [company_sentiment, List.mem_map, List.mem_dedup]
  constructor
  · rintro ⟨c, ⟨r, hr, hrc⟩, rfl⟩
    exact ⟨c, ⟨r, h.mem_iff.mp hr, hrc⟩, by rw [hagg]⟩
  · rintro ⟨c, ⟨r, hr, hrc⟩, rfl⟩
    exact ⟨c, ⟨r, h.mem_iff.mpr hr, hrc⟩, by rw [hagg]⟩

/-- C7 witness: swapping a two-article batch. -/
theorem C7_aggregation_perm_witness :
    ([exR1, exR2].Perm [exR2, exR1]) ∧
    (∀ p, p ∈ company_sentiment [exR1, exR2] ↔
      p ∈ company_sentiment [exR2, exR1]) ∧
    ∀ c, companyAgg [exR1, exR2] c = companyAgg [exR2, exR1] c := by
  have hp : ([exR1, exR2].Perm [exR2, exR1]) := List.Perm.swap exR2 exR1 []
  exact ⟨hp, (C7_aggregation_perm _ _ hp).1, (C7_aggregation_perm _ _ hp).2⟩

end SparkNewsConsumer
